import Mathlib

/-!
Verification of the Auto_Blog pipeline core: topic selection with
deduplication and fallback (app.py get_trending_topics, utils.py
is_duplicate_topic), content synthesis with bounded retry (app.py
generate_content / query_model), related-post ranking
(traffic_engine.py find_related_posts), and the publish coordinator
(app.py publish) plus the run orchestrator (app.py run).

Python text primitives (str.lower, str.split, str.replace, slicing)
are embedded as structural recursions over character lists so that all
definitions evaluate inside the kernel.  Network effects are embedded
as explicit parameters (backends, target outcomes) and traces.
-/

namespace AutoBlog

/-- Embedding of Python str.lower (ASCII case folding, which is all the
repository feeds it). -/
def pyLower (s : String) : String :=
  String.mk (s.data.map Char.toLower)

/-- Helper for pySplit: accumulates the current word (reversed) while
scanning the character list, splitting on whitespace runs. -/
def pyWordsAux (cur : List Char) : List Char → List String
  | [] => if cur.isEmpty then [] else [String.mk cur.reverse]
  | c :: cs =>
    if c.isWhitespace then
      if cur.isEmpty then pyWordsAux [] cs
      else String.mk cur.reverse :: pyWordsAux [] cs
    else pyWordsAux (c :: cur) cs

/-- Embedding of Python str.split() with no argument: split on runs of
whitespace, discarding empty fragments. -/
def pySplit (s : String) : List String :=
  pyWordsAux [] s.data

/-- If the first list is a prefix of the second, return the remainder of
the second; otherwise none. -/
def dropPre : List Char → List Char → Option (List Char)
  | [], l => some l
  | _ :: _, [] => none
  | p :: ps, c :: cs => if p = c then dropPre ps cs else none

/-- Fuel-indexed worker for pyReplace.  With fuel at least the length of
the scanned list and a nonempty pattern, the fuel never runs out. -/
def pyReplaceAux (pat repl : List Char) : Nat → List Char → List Char
  | _, [] => []
  | 0, l => l
  | n + 1, c :: cs =>
    match dropPre pat (c :: cs) with
    | some rest => repl ++ pyReplaceAux pat repl n rest
    | none => c :: pyReplaceAux pat repl n cs

/-- Embedding of Python str.replace for a nonempty pattern: replace all
non-overlapping occurrences left to right. -/
def pyReplace (s pat repl : String) : String :=
  String.mk (pyReplaceAux pat.data repl.data s.data.length s.data)

/-- Embedding of Python string slicing s[:n]. -/
def pyTake (s : String) (n : Nat) : String :=
  String.mk (s.data.take n)

/-- One record of history.json: the dictionary appended by
AutoBlogger.publish.  Timestamps are modelled as integer seconds. -/
structure HistoryEntry where
  topic : String
  date : Int
  url : String
deriving DecidableEq

/-- Seconds in a day, the unit used to translate datetime.timedelta(days=n). -/
def secondsPerDay : Int := 86400

/-- utils.is_duplicate_topic: true when some history entry has a
case-insensitively equal topic and a date strictly after now minus the
window. -/
def is_duplicate_topic (topic : String) (history : List HistoryEntry) (now : Int)
    (days : Int := 7) : Bool :=
  history.any (fun e =>
    (pyLower e.topic == pyLower topic) && decide (now - days * secondsPerDay < e.date))

/-- app.py FALLBACK_TOPICS. -/
def FALLBACK_TOPICS : List String :=
  ["Artificial Intelligence Trends 2026",
   "Quantum Computing Breakthroughs",
   "Sustainable Energy Innovations",
   "Space Exploration Updates 2026",
   "Future of Remote Work"]

/-- app.py AutoBlogger.get_trending_topics after the two live fetches:
topics is the fetched list, already shuffled (random.shuffle is
nondeterministic, so the shuffled list is taken as the input).  If the
fetched list is nonempty, duplicates are filtered out; a nonempty
filtered list is returned capped at 15; otherwise the static fallback. -/
def get_trending_topics (topics : List String) (history : List HistoryEntry)
    (now : Int) : List String :=
  if topics ≠ [] then
    let unique_topics := topics.filter (fun t => !(is_duplicate_topic t history now))
    if unique_topics ≠ [] then unique_topics.take 15
    else FALLBACK_TOPICS
  else FALLBACK_TOPICS

/-! Content Synthesizer (app.py generate_content and its inner query_model).

The text-generation backend is a parameter backend : model name → prompt
→ Option String, where none covers every way a candidate yields no
usable text in the source (non-200 status, request exception, empty or
missing text field), and some t is a non-empty response text t.  The
relevance validator (validate_content) and the strict-prompt rewrite are
likewise parameters. -/

/-- app.py query_model, retry pass (is_retry = True): iterate candidates
in order; the first non-empty response is returned whether or not it
passes validation (the source logs and `returns the result anyway` when
validation fails on the retry pass). -/
def retry_pass (backend : String → String → Option String) (valid : String → Bool)
    (prompt : String) : List String → Option String
  | [] => none
  | m :: rest =>
    match backend m prompt with
    | some t => if valid t then some t else some t
    | none => retry_pass backend valid prompt rest

/-- app.py query_model, first pass (is_retry = False), iterating over the
remaining candidates while remembering the full candidate list: the
first non-empty response is returned if valid; if invalid, the routine
switches to the retry pass with the strict prompt, restarting at
candidate 0 of the full list. -/
def query_model_go (backend : String → String → Option String) (valid : String → Bool)
    (strict : String → String) (models : List String) (prompt : String) :
    List String → Option String
  | [] => none
  | m :: rest =>
    match backend m prompt with
    | some t =>
      if valid t then some t
      else retry_pass backend valid (strict prompt) models
    | none => query_model_go backend valid strict models prompt rest

/-- app.py query_model(prompt, is_retry=False). -/
def query_model (backend : String → String → Option String) (valid : String → Bool)
    (strict : String → String) (models : List String) (prompt : String) : Option String :=
  query_model_go backend valid strict models prompt models

/-- app.py generate_content model candidate list. -/
def modelList : List String :=
  ["facebook/bart-large-cnn", "google/flan-t5-large", "sshleifer/distilbart-cnn-12-6"]

/-- app.py generate_content prompts dictionary (Python 3.7+ dicts keep
insertion order, so a list of pairs). -/
def sectionPrompts (topic context : String) : List (String × String) :=
  [("intro", "Topic: " ++ topic ++ ". Context: " ++ pyTake context 500 ++
      ". Output a professional, engaging introduction paragraph for a blog post. Start directly with the hook. Do not say \x27Here is an intro\x27."),
   ("body", "Topic: " ++ topic ++ ". Context: " ++ pyTake context 800 ++
      ". Output 3 detailed paragraphs explaining the key developments, technical details, and why this matters. Use professional tone. Do not use bullet points. Do not say \x27Here is the body\x27."),
   ("impact", "Topic: " ++ topic ++ ". Context: " ++ pyTake context 500 ++
      ". Output a short analysis of the future impact and consequences. Focus on 2026 predictions. Do not say \x27Here is the analysis\x27."),
   ("conclusion", "Topic: " ++ topic ++
      ". Output a concluding paragraph summarizing the main point and asking the reader a thought-provoking question. Do not say \x27In conclusion\x27.")]

/-- The sections loop at the end of app.py generate_content: query each
prompt in order; a none from the query routine fails the whole call,
otherwise record the section and continue. -/
def sections_loop (qm : String → Option String) :
    List (String × String) → Option (List (String × String))
  | [] => some []
  | (key, p) :: rest =>
    match qm p with
    | none => none
    | some text => (sections_loop qm rest).map (fun s => (key, text) :: s)

/-- app.py generate_content(topic, news_snippets): context is the first 8
snippets joined by spaces; the four fixed prompts are queried through
query_model over the fixed candidate list. -/
def generate_content (backend : String → String → Option String) (valid : String → Bool)
    (strict : String → String) (topic : String) (news_snippets : List String) :
    Option (List (String × String)) :=
  let context := String.intercalate " " (news_snippets.take 8)
  sections_loop (fun p => query_model backend valid strict modelList p)
    (sectionPrompts topic context)

/-! History Ledger ranking (traffic_engine.py TrafficEngine.find_related_posts). -/

/-- Size of the intersection of the lowercase whitespace-token sets of
two strings (len of Python set intersection). -/
def sharedTokenCount (a b : String) : Nat :=
  (((pySplit (pyLower a)).dedup).filter (fun w => w ∈ pySplit (pyLower b))).length

/-- The scored_posts list built by find_related_posts: skip the entry
whose topic is (case-sensitively) the current topic, keep entries with
positive overlap, paired with their overlap, in history order. -/
def scored_posts (current_topic : String) (history : List HistoryEntry) :
    List (Nat × HistoryEntry) :=
  history.filterMap (fun e =>
    if e.topic = current_topic then none
    else
      let overlap := sharedTokenCount current_topic e.topic
      if 0 < overlap then some (overlap, e) else none)

/-- The comparison used to embed Python list.sort(key=overlap,
reverse=True): a stable descending sort by the overlap component. -/
def byOverlapDesc (a b : Nat × HistoryEntry) : Prop := b.1 ≤ a.1

instance : DecidableRel byOverlapDesc :=
  fun a b => inferInstanceAs (Decidable (b.1 ≤ a.1))

instance : IsTotal (Nat × HistoryEntry) byOverlapDesc :=
  ⟨fun a b => le_total b.1 a.1⟩

instance : IsTrans (Nat × HistoryEntry) byOverlapDesc :=
  ⟨fun _ _ _ hab hbc => le_trans hbc hab⟩

/-- traffic_engine.py find_related_posts(current_topic, history, limit=3):
stable descending sort of the scored posts by overlap, then the entries
of the first limit pairs.  (Insertion sort with byOverlapDesc computes
exactly the stable descending order Python list.sort produces.) -/
def find_related_posts (current_topic : String) (history : List HistoryEntry)
    (limit : Nat := 3) : List HistoryEntry :=
  ((List.insertionSort byOverlapDesc (scored_posts current_topic history)).map
    Prod.snd).take limit

/-! Publish Coordinator (app.py AutoBlogger.publish).

Each target outcome is a parameter: notConfigured means the guard for
that target was false (missing key, or for Hashnode a failed
publication-id fetch) so no request carrying the rendered body was made;
failed means the body was submitted but no post resulted; succeeded u
means the target reported a post at URL u (for Blogger the response URL
is only logged by the source, never captured). -/

inductive TargetResult where
  | notConfigured : TargetResult
  | failed : TargetResult
  | succeeded : String → TargetResult
deriving DecidableEq

/-- Whether a target reported success. -/
def TargetResult.isSuccess : TargetResult → Bool
  | succeeded _ => true
  | _ => false

/-- The placeholder sentinel used by app.py for an unresolved URL. -/
def URL_PLACEHOLDER : String := "URL_PLACEHOLDER"

/-- Observable trace of one publish call: files written (dry run), the
body text each configured target submitted, the notifier invocations
(service name, url) in order, and the resulting history list. -/
structure PublishTrace where
  filesWritten : List (String × String)
  hashnodeSubmitted : Option String
  devtoSubmitted : Option String
  bloggerSubmitted : Option String
  notifications : List (String × String)
  history : List HistoryEntry
deriving DecidableEq

/-- app.py AutoBlogger.publish(title, md_devto, md_hashnode, html, topic),
with dry_run from the instance and the three target outcomes as
parameters.  Mirrors the source order: dry-run early return; Hashnode
(body with placeholder replaced by "this post", success sets
published_url); Dev.to (body with placeholder replaced by the empty
string, success sets published_url only if still unresolved); Blogger
(body with placeholder replaced by published_url when resolved, else
empty; its response URL is never captured); indexing notification only
when published_url is truthy and not the sentinel; unconditional history
append of one entry carrying published_url. -/
def publish (dry_run : Bool) (hashnode devto blogger : TargetResult)
    (md_devto md_hashnode html topic : String) (now : Int)
    (history : List HistoryEntry) : PublishTrace :=
  if dry_run then
    { filesWritten := [("dry_run_devto.md", md_devto),
        ("dry_run_hashnode.md", md_hashnode), ("dry_run_article.html", html)],
      hashnodeSubmitted := none, devtoSubmitted := none, bloggerSubmitted := none,
      notifications := [], history := history }
  else
    let hashnodeSubmitted :=
      match hashnode with
      | TargetResult.notConfigured => none
      | _ => some (pyReplace md_hashnode URL_PLACEHOLDER "this post")
    let url1 :=
      match hashnode with
      | TargetResult.succeeded u => u
      | _ => URL_PLACEHOLDER
    let devtoSubmitted :=
      match devto with
      | TargetResult.notConfigured => none
      | _ => some (pyReplace md_devto URL_PLACEHOLDER "")
    let url2 :=
      match devto with
      | TargetResult.succeeded u => if url1 = URL_PLACEHOLDER then u else url1
      | _ => url1
    let bloggerSubmitted :=
      match blogger with
      | TargetResult.notConfigured => none
      | _ => some (pyReplace html URL_PLACEHOLDER
          (if url2 ≠ URL_PLACEHOLDER then url2 else ""))
    let notifications :=
      if url2 ≠ "" ∧ url2 ≠ URL_PLACEHOLDER then
        [("submit_to_gsc", url2), ("ping_services", url2), ("trigger_indexnow", url2)]
      else []
    { filesWritten := [], hashnodeSubmitted, devtoSubmitted, bloggerSubmitted,
      notifications,
      history := history ++ [{ topic := topic, date := now, url := url2 }] }

/-- The canonical URL a publish run resolves: the first success among
Hashnode and Dev.to in source order (Blogger never contributes one),
URL_PLACEHOLDER when neither succeeds. -/
def canonicalUrl (hashnode devto : TargetResult) : String :=
  match hashnode with
  | TargetResult.succeeded u => u
  | _ =>
    match devto with
    | TargetResult.succeeded u => u
    | _ => URL_PLACEHOLDER

/-! Run Orchestrator (app.py AutoBlogger.run).

Research fetch and content generation are parameters keyed by topic; the
trace records which topics had generation invoked, which topics were
attempted at all, and the topic (if any) that reached the publish step. -/

structure RunTrace where
  genCalls : List String
  attempted : List String
  published : Option String
deriving DecidableEq

/-- The candidate loop of app.py run: for each topic, fetch news; an
empty news list skips to the next candidate without generating; a failed
generation skips to the next candidate; a successful generation reaches
format_article and publish and ends the run. -/
def run_loop (research : String → List String)
    (gen : String → Option (List (String × String))) : List String → RunTrace
  | [] => { genCalls := [], attempted := [], published := none }
  | t :: rest =>
    if research t = [] then
      let r := run_loop research gen rest
      { r with attempted := t :: r.attempted }
    else
      match gen t with
      | some _ => { genCalls := [t], attempted := [t], published := some t }
      | none =>
        let r := run_loop research gen rest
        { genCalls := t :: r.genCalls, attempted := t :: r.attempted,
          published := r.published }

/-! Theorems.  Helper lemmas come first; each claim theorem carries the
claim id in its doc comment. -/

/-- The retry pass returns exactly the first non-empty candidate
response, validated or not. -/
theorem retry_pass_eq_findSome (backend : String → String → Option String)
    (valid : String → Bool) (prompt : String) (l : List String) :
    retry_pass backend valid prompt l = l.findSome? (fun m => backend m prompt) := by
  induction l with
  | nil => rfl
  | cons m rest ih =>
    simp only [retry_pass, List.findSome?_cons]
    cases backend m prompt with
    | none => exact ih
    | some t => by_cases h : valid t <;> simp [h]

/-- First-pass characterization over any remaining candidate suffix. -/
theorem query_model_go_eq (backend : String → String → Option String)
    (valid : String → Bool) (strict : String → String) (models : List String)
    (prompt : String) (l : List String) :
    query_model_go backend valid strict models prompt l =
      match l.findSome? (fun m => backend m prompt) with
      | none => none
      | some t =>
        if valid t then some t
        else retry_pass backend valid (strict prompt) models := by
  induction l with
  | nil => rfl
  | cons m rest ih =>
    simp only [query_model_go, List.findSome?_cons]
    cases backend m prompt with
    | none => exact ih
    | some t => rfl

/-- Claim C1: for every prompt, the model-query routine is exactly a
two-pass search: the first pass returns the first non-empty candidate
response if it validates; if that response fails validation, exactly one
retry runs the full candidate list from candidate 0 on the
stricter-rewritten prompt and returns its first non-empty response
whether or not it validates (never failing on an invalid retry result,
and never recursing further). -/
theorem query_model_single_retry (backend : String → String → Option String)
    (valid : String → Bool) (strict : String → String) (models : List String)
    (prompt : String) :
    query_model backend valid strict models prompt =
      match models.findSome? (fun m => backend m prompt) with
      | none => none
      | some t =>
        if valid t then some t
        else models.findSome? (fun m => backend m (strict prompt)) := by
  rw [query_model, query_model_go_eq]
  cases models.findSome? (fun m => backend m prompt) with
  | none => rfl
  | some t =>
    by_cases h : valid t
    · simp [h]
    · simp [h, retry_pass_eq_findSome]

/-- If any prompt in the list yields none from the query routine, the
sections loop fails as a whole. -/
theorem sections_loop_none (qm : String → Option String)
    (ps : List (String × String)) (pr : String × String) (hmem : pr ∈ ps)
    (hnone : qm pr.2 = none) : sections_loop qm ps = none := by
  induction ps with
  | nil => cases hmem
  | cons hd rest ih =>
    obtain ⟨key, p⟩ := hd
    rcases List.mem_cons.1 hmem with h | h
    · subst h
      simp only [sections_loop, hnone]
    · simp only [sections_loop]
      cases qm p with
      | none => rfl
      | some t => rw [ih h]; rfl

/-- A successful sections loop returns one section per prompt, with the
prompt keys in order. -/
theorem sections_loop_keys (qm : String → Option String) :
    ∀ (ps : List (String × String)) (s : List (String × String)),
      sections_loop qm ps = some s → s.map Prod.fst = ps.map Prod.fst := by
  intro ps
  induction ps with
  | nil => intro s h; cases h; rfl
  | cons hd rest ih =>
    obtain ⟨key, p⟩ := hd
    intro s h
    simp only [sections_loop] at h
    cases hq : qm p with
    | none => rw [hq] at h; cases h
    | some t =>
      rw [hq] at h
      cases hr : sections_loop qm rest with
      | none => rw [hr] at h; cases h
      | some s0 =>
        rw [hr] at h
        cases h
        simpa using ih s0 hr

/-- Claim C2: if any one of the four fixed section prompts exhausts every
model candidate without usable text (its query returns none), the whole
generate_content call returns none — no partial section mapping; and any
successful result carries exactly the four sections intro, body, impact,
conclusion in order. -/
theorem generate_content_all_or_nothing (backend : String → String → Option String)
    (valid : String → Bool) (strict : String → String) (topic : String)
    (news_snippets : List String) :
    (∀ pr ∈ sectionPrompts topic (String.intercalate " " (news_snippets.take 8)),
      query_model backend valid strict modelList pr.2 = none →
      generate_content backend valid strict topic news_snippets = none)
    ∧ (∀ s, generate_content backend valid strict topic news_snippets = some s →
        s.map Prod.fst = ["intro", "body", "impact", "conclusion"]) := by
  constructor
  · intro pr hmem hnone
    exact sections_loop_none _ _ pr hmem hnone
  · intro s h
    have := sections_loop_keys
      (fun p => query_model backend valid strict modelList p)
      (sectionPrompts topic (String.intercalate " " (news_snippets.take 8))) s h
    simpa [sectionPrompts] using this

/-- Witness for C2: with a backend on which every candidate yields no
usable text, generation of the intro section fails and the whole call
returns none. -/
theorem generate_content_all_or_nothing_witness :
    generate_content (fun _ _ => none) (fun _ => true) id "T" [] = none := by
  refine (generate_content_all_or_nothing (fun _ _ => none) (fun _ => true) id "T" []).1
    ("intro",
      "Topic: T. Context: . Output a professional, engaging introduction paragraph for a blog post. Start directly with the hook. Do not say \x27Here is an intro\x27.")
    (by decide) rfl

/-- Counterexample to claim C3 as stated: a live source returns the
non-empty (post-shuffle) set consisting of "AI Chips", the history makes
it a recent duplicate so filtering empties the set, and the function
returns the static FALLBACK_TOPICS — not the unfiltered shuffled set
capped at 15, which would be the singleton again. -/
theorem get_trending_topics_empty_filter_not_unfiltered :
    get_trending_topics ["AI Chips"] [⟨"ai chips", 0, "u"⟩] 0 = FALLBACK_TOPICS
    ∧ (["AI Chips"] : List String) ≠ []
    ∧ (["AI Chips"].filter
        (fun t => !(is_duplicate_topic t [⟨"ai chips", 0, "u"⟩] 0)) = [])
    ∧ FALLBACK_TOPICS ≠ (["AI Chips"] : List String).take 15 := by decide

/-- Claim C3 (amended): when a live trend source returns a non-empty
topic set and filtering out recent duplicates empties it, the function
returns the static fallback list FALLBACK_TOPICS (so it still fails
neither with an error nor with an empty result), not the unfiltered
shuffled set. -/
theorem get_trending_topics_fallback_on_empty_filter (topics : List String)
    (history : List HistoryEntry) (now : Int) (hne : topics ≠ [])
    (hfil : topics.filter (fun t => !(is_duplicate_topic t history now)) = []) :
    get_trending_topics topics history now = FALLBACK_TOPICS
    ∧ get_trending_topics topics history now ≠ [] := by
  have h : get_trending_topics topics history now = FALLBACK_TOPICS := by
    unfold get_trending_topics
    rw [if_pos hne]
    simp only [hfil]
    rfl
  exact ⟨h, by rw [h]; simp [FALLBACK_TOPICS]⟩

/-- Witness for the amended C3: one duplicated-only candidate list. -/
theorem get_trending_topics_fallback_on_empty_filter_witness :
    get_trending_topics ["Quantum Batteries"] [⟨"QUANTUM batteries", 100, "url"⟩] 100
        = FALLBACK_TOPICS
    ∧ get_trending_topics ["Quantum Batteries"] [⟨"QUANTUM batteries", 100, "url"⟩] 100
        ≠ [] :=
  get_trending_topics_fallback_on_empty_filter _ _ _ (by decide) (by decide)

/-- Claim C4: is_duplicate_topic is true exactly when some history entry
has a case-insensitively equal topic whose timestamp is strictly within
the window (now minus the entry date below days worth of seconds), and
an entry dated exactly at the window boundary is not a duplicate. -/
theorem is_duplicate_topic_iff (T : String) (history : List HistoryEntry)
    (now days : Int) :
    (is_duplicate_topic T history now days = true ↔
      ∃ e ∈ history, pyLower e.topic = pyLower T ∧
        now - e.date < days * secondsPerDay)
    ∧ (∀ u : String,
        is_duplicate_topic T [⟨T, now - days * secondsPerDay, u⟩] now days = false) := by
  constructor
  · simp only [is_duplicate_topic, List.any_eq_true, Bool.and_eq_true, beq_iff_eq,
      decide_eq_true_eq]
    constructor
    · rintro ⟨e, he, h1, h2⟩
      exact ⟨e, he, h1, by omega⟩
    · rintro ⟨e, he, h1, h2⟩
      exact ⟨e, he, h1, by omega⟩
  · intro u
    simp [is_duplicate_topic]

/-- Witness for C4: a case-insensitive duplicate inside the window is
detected. -/
theorem is_duplicate_topic_iff_witness :
    is_duplicate_topic "AI Chips" [⟨"ai CHIPS", 50, "u"⟩] 100 7 = true :=
  ((is_duplicate_topic_iff "AI Chips" [⟨"ai CHIPS", 50, "u"⟩] 100 7).1).2
    ⟨⟨"ai CHIPS", 50, "u"⟩, by decide, by decide, by decide⟩

/-- Membership in scored_posts characterizes the entry: it comes from
history, its topic is not the (case-sensitively) current topic, and it
is paired with its positive shared-token count. -/
theorem mem_scored_posts {p : Nat × HistoryEntry} {T : String}
    {history : List HistoryEntry} (h : p ∈ scored_posts T history) :
    p.2 ∈ history ∧ p.2.topic ≠ T ∧ 0 < p.1 ∧
      p.1 = sharedTokenCount T p.2.topic := by
  rw [scored_posts, List.mem_filterMap] at h
  obtain ⟨e, he, hf⟩ := h
  by_cases h1 : e.topic = T
  · rw [if_pos h1] at hf; cases hf
  · rw [if_neg h1] at hf
    by_cases h2 : 0 < sharedTokenCount T e.topic
    · rw [if_pos h2] at hf
      cases hf
      exact ⟨he, h1, h2, rfl⟩
    · rw [if_neg h2] at hf; cases hf

/-- Inserting a pair into a list puts it in front of every pair with the
same overlap value: the filter at any fixed overlap value grows only at
its head. -/
theorem filter_key_orderedInsert (k : Nat) (a : Nat × HistoryEntry)
    (l : List (Nat × HistoryEntry)) :
    (List.orderedInsert byOverlapDesc a l).filter (fun p => p.1 == k) =
      if a.1 == k then a :: l.filter (fun p => p.1 == k)
      else l.filter (fun p => p.1 == k) := by
  induction l with
  | nil =>
    by_cases hak : a.1 == k <;> simp [List.orderedInsert, List.filter, hak]
  | cons b l ih =>
    simp only [List.orderedInsert]
    by_cases hr : byOverlapDesc a b
    · rw [if_pos hr]
      by_cases hak : a.1 == k <;> by_cases hbk : b.1 == k <;>
        simp [List.filter, hak, hbk]
    · rw [if_neg hr]
      have hlt : a.1 < b.1 := lt_of_not_le hr
      by_cases hak : a.1 == k
      · have hbk : (b.1 == k) = false := by
          have : a.1 = k := by simpa using hak
          simp only [beq_eq_false_iff_ne, ne_eq]
          omega
        simp [List.filter, hbk, ih, hak]
      · by_cases hbk : b.1 == k <;> simp [List.filter, hbk, ih, hak]

/-- The stable descending sort keeps pairs of equal overlap in their
original relative order: filtering at any overlap value commutes with
the sort. -/
theorem filter_key_insertionSort (k : Nat) (l : List (Nat × HistoryEntry)) :
    (List.insertionSort byOverlapDesc l).filter (fun p => p.1 == k) =
      l.filter (fun p => p.1 == k) := by
  induction l with
  | nil => rfl
  | cons a l ih =>
    simp only [List.insertionSort]
    rw [filter_key_orderedInsert]
    by_cases hak : a.1 == k <;> simp [List.filter, hak, ih]

/-- Claim C5 (amended): find_related_posts returns at most limit entries;
every returned entry comes from history, differs (case-sensitively) from
the current topic and shares at least one lowercase whitespace token
with it (entries with zero shared tokens are dropped entirely, never
returned, so in particular never ranked above sharing entries); the
returned sequence is ordered by shared-token count descending; and
entries of equal count stay in their original history order (the sorted
scored list filtered at any count equals the unsorted scored list, which
is in history order, filtered at that count). -/
theorem find_related_posts_ranking (T : String) (history : List HistoryEntry)
    (limit : Nat) :
    (find_related_posts T history limit).length ≤ limit
    ∧ (∀ e ∈ find_related_posts T history limit,
        e ∈ history ∧ e.topic ≠ T ∧ 0 < sharedTokenCount T e.topic)
    ∧ List.Pairwise
        (fun a b => sharedTokenCount T b.topic ≤ sharedTokenCount T a.topic)
        (find_related_posts T history limit)
    ∧ (∀ k : Nat,
        (List.insertionSort byOverlapDesc (scored_posts T history)).filter
            (fun p => p.1 == k) =
          (scored_posts T history).filter (fun p => p.1 == k)) := by
  refine ⟨?_, ?_, ?_, fun k => filter_key_insertionSort k _⟩
  · rw [find_related_posts, List.length_take]
    exact min_le_left _ _
  · intro e he
    have he' := List.take_subset _ _ he
    rw [List.mem_map] at he'
    obtain ⟨p, hp, hpe⟩ := he'
    have hp' := (List.perm_insertionSort byOverlapDesc _).mem_iff.1 hp
    have := mem_scored_posts hp'
    rw [hpe] at this
    exact ⟨this.1, this.2.1, by rw [← this.2.2.2]; exact this.2.2.1⟩
  · have hsorted : List.Pairwise byOverlapDesc
        (List.insertionSort byOverlapDesc (scored_posts T history)) :=
      List.sorted_insertionSort byOverlapDesc _
    have hkey : ∀ p ∈ List.insertionSort byOverlapDesc (scored_posts T history),
        p.1 = sharedTokenCount T p.2.topic := by
      intro p hp
      exact (mem_scored_posts ((List.perm_insertionSort byOverlapDesc _).mem_iff.1 hp)).2.2.2
    have hpair : List.Pairwise
        (fun p q : Nat × HistoryEntry =>
          sharedTokenCount T q.2.topic ≤ sharedTokenCount T p.2.topic)
        (List.insertionSort byOverlapDesc (scored_posts T history)) := by
      refine hsorted.imp_of_mem ?_
      intro p q hp hq hr
      rw [← hkey p hp, ← hkey q hq]
      exact hr
    have hmap : List.Pairwise
        (fun a b : HistoryEntry =>
          sharedTokenCount T b.topic ≤ sharedTokenCount T a.topic)
        ((List.insertionSort byOverlapDesc (scored_posts T history)).map Prod.snd) :=
      List.pairwise_map.2 hpair
    exact hmap.sublist (List.take_sublist _ _)

/-- Witness for the amended C5 at a concrete query. -/
theorem find_related_posts_ranking_witness :
    (find_related_posts "quantum computing news"
        [⟨"old news roundup", 1, "b"⟩, ⟨"quantum chips", 2, "c"⟩] 3).length ≤ 3 :=
  (find_related_posts_ranking "quantum computing news"
    [⟨"old news roundup", 1, "b"⟩, ⟨"quantum chips", 2, "c"⟩] 3).1

/-- Counterexample to claim C5 as stated: with limit 3 and a single
history entry sharing zero tokens with the query topic, the claimed
ranking of all non-current entries would return that entry (length 1,
within the limit), but the function drops zero-overlap entries and
returns the empty list. -/
theorem find_related_posts_zero_overlap_dropped :
    find_related_posts "alpha beta" [⟨"gamma delta", 0, "u"⟩] 3 = []
    ∧ (⟨"gamma delta", 0, "u"⟩ : HistoryEntry).topic ≠ "alpha beta"
    ∧ ([(⟨"gamma delta", 0, "u"⟩ : HistoryEntry)].length ≤ 3) := by decide

/-- Counterexample to claim C6 as stated: in a run where Blogger is the
only target that succeeds, a publish target succeeded, yet the indexing
notifiers are never invoked — the source never captures the Blogger
response URL, so the canonical URL stays unresolved. -/
theorem publish_blogger_only_skips_notifiers :
    (publish false TargetResult.failed TargetResult.failed
        (TargetResult.succeeded "https://blogger.example/post") "d" "h" "x" "T" 0
        []).notifications = []
    ∧ (TargetResult.succeeded "https://blogger.example/post").isSuccess = true := by
  decide

/-- Claim C6 (amended): the three indexing notifiers are each invoked
exactly once, in source order, with the canonical URL (the first
successful URL among Hashnode then Dev.to) exactly when Hashnode or
Dev.to succeeded; a Blogger-only success, or no success, invokes no
notifier.  Successful target URLs are assumed non-empty and distinct
from the placeholder sentinel. -/
theorem publish_notifiers_iff_hashnode_or_devto (hn dv bg : TargetResult)
    (md_devto md_hashnode html topic : String) (now : Int)
    (history : List HistoryEntry)
    (hhn : ∀ u, hn = TargetResult.succeeded u → u ≠ "" ∧ u ≠ URL_PLACEHOLDER)
    (hdv : ∀ u, dv = TargetResult.succeeded u → u ≠ "" ∧ u ≠ URL_PLACEHOLDER) :
    (publish false hn dv bg md_devto md_hashnode html topic now history).notifications =
      (if hn.isSuccess || dv.isSuccess then
        [("submit_to_gsc", canonicalUrl hn dv), ("ping_services", canonicalUrl hn dv),
         ("trigger_indexnow", canonicalUrl hn dv)]
      else []) := by
  cases hn with
  | succeeded u =>
    have hu := hhn u rfl
    cases dv <;>
      simp [publish, canonicalUrl, TargetResult.isSuccess, hu.1, hu.2]
  | notConfigured =>
    cases dv with
    | succeeded v =>
      have hv := hdv v rfl
      have hv2 : ¬v = "URL_PLACEHOLDER" := by simpa [URL_PLACEHOLDER] using hv.2
      simp [publish, canonicalUrl, TargetResult.isSuccess, hv.1, hv2, URL_PLACEHOLDER]
    | notConfigured => simp [publish, canonicalUrl, TargetResult.isSuccess, URL_PLACEHOLDER]
    | failed => simp [publish, canonicalUrl, TargetResult.isSuccess, URL_PLACEHOLDER]
  | failed =>
    cases dv with
    | succeeded v =>
      have hv := hdv v rfl
      have hv2 : ¬v = "URL_PLACEHOLDER" := by simpa [URL_PLACEHOLDER] using hv.2
      simp [publish, canonicalUrl, TargetResult.isSuccess, hv.1, hv2, URL_PLACEHOLDER]
    | notConfigured => simp [publish, canonicalUrl, TargetResult.isSuccess, URL_PLACEHOLDER]
    | failed => simp [publish, canonicalUrl, TargetResult.isSuccess, URL_PLACEHOLDER]

/-- Witness for the amended C6: the spec scenario where only the second
target (Dev.to) succeeds — notifiers fire exactly once each with its
URL. -/
theorem publish_notifiers_iff_hashnode_or_devto_witness :
    (publish false TargetResult.failed (TargetResult.succeeded "https://dev.to/a/x")
        TargetResult.failed "d" "h" "x" "T" 0 []).notifications =
      [("submit_to_gsc", "https://dev.to/a/x"), ("ping_services", "https://dev.to/a/x"),
       ("trigger_indexnow", "https://dev.to/a/x")] := by
  have h := publish_notifiers_iff_hashnode_or_devto TargetResult.failed
    (TargetResult.succeeded "https://dev.to/a/x") TargetResult.failed "d" "h" "x" "T" 0 []
    (fun u hu => nomatch hu)
    (fun u hu => by cases hu; exact ⟨by decide, by decide⟩)
  simpa [canonicalUrl, TargetResult.isSuccess] using h

/-- Claim C7: every non-dry-run publish appends exactly one entry to the
history (the prior entries untouched, with the run topic and timestamp),
whatever the target outcomes; and when no target succeeds, the appended
entry carries the unresolved-URL sentinel. -/
theorem publish_appends_exactly_one (hn dv bg : TargetResult)
    (md_devto md_hashnode html topic : String) (now : Int)
    (history : List HistoryEntry) :
    ∃ u : String,
      (publish false hn dv bg md_devto md_hashnode html topic now history).history =
        history ++ [{ topic := topic, date := now, url := u }]
      ∧ (publish false hn dv bg md_devto md_hashnode html topic now
          history).history.length = history.length + 1
      ∧ (hn.isSuccess = false → dv.isSuccess = false → bg.isSuccess = false →
          u = URL_PLACEHOLDER) := by
  cases hn with
  | succeeded u =>
    refine ⟨_, rfl, by simp [publish], ?_⟩
    intro h1 _ _
    exact absurd h1 (by simp [TargetResult.isSuccess])
  | notConfigured =>
    cases dv with
    | succeeded v =>
      refine ⟨_, rfl, by simp [publish], ?_⟩
      intro _ h2 _
      exact absurd h2 (by simp [TargetResult.isSuccess])
    | notConfigured => exact ⟨URL_PLACEHOLDER, rfl, by simp [publish], fun _ _ _ => rfl⟩
    | failed => exact ⟨URL_PLACEHOLDER, rfl, by simp [publish], fun _ _ _ => rfl⟩
  | failed =>
    cases dv with
    | succeeded v =>
      refine ⟨_, rfl, by simp [publish], ?_⟩
      intro _ h2 _
      exact absurd h2 (by simp [TargetResult.isSuccess])
    | notConfigured => exact ⟨URL_PLACEHOLDER, rfl, by simp [publish], fun _ _ _ => rfl⟩
    | failed => exact ⟨URL_PLACEHOLDER, rfl, by simp [publish], fun _ _ _ => rfl⟩

/-- Witness for C7: all targets fail, one sentinel entry is appended. -/
theorem publish_appends_exactly_one_witness :
    (publish false TargetResult.failed TargetResult.notConfigured TargetResult.failed
        "d" "h" "x" "T" 5 []).history =
      [{ topic := "T", date := 5, url := URL_PLACEHOLDER }] := by
  obtain ⟨u, h1, _, h3⟩ := publish_appends_exactly_one TargetResult.failed
    TargetResult.notConfigured TargetResult.failed "d" "h" "x" "T" 5 []
  rw [h3 rfl rfl rfl] at h1
  simpa using h1

/-- Counterexample to claim C8 as stated: Hashnode (the first target)
succeeds and establishes the canonical URL, but the later-attempted
Dev.to target submits its body with the placeholder replaced by the
empty string, not by that canonical URL. -/
theorem publish_devto_substitutes_empty :
    (publish false (TargetResult.succeeded "https://hn.example/p") TargetResult.failed
        TargetResult.notConfigured "Share URL_PLACEHOLDER now" "h" "x" "T" 0
        []).devtoSubmitted = some "Share  now"
    ∧ "Share  now" ≠ "Share https://hn.example/p now"
    ∧ (TargetResult.succeeded "https://hn.example/p").isSuccess = true := by decide

/-- Claim C8 (amended): the placeholder substitutions are fixed per
target — Hashnode always substitutes the literal text "this post",
Dev.to always substitutes the empty string, and only Blogger substitutes
the canonical URL established by an earlier Hashnode or Dev.to success
(or the empty string when neither succeeded).  Successful URLs are
assumed distinct from the placeholder sentinel. -/
theorem publish_placeholder_substitution (hn dv bg : TargetResult)
    (md_devto md_hashnode html topic : String) (now : Int)
    (history : List HistoryEntry)
    (hhn : ∀ u, hn = TargetResult.succeeded u → u ≠ URL_PLACEHOLDER)
    (hdv : ∀ u, dv = TargetResult.succeeded u → u ≠ URL_PLACEHOLDER) :
    (hn ≠ TargetResult.notConfigured →
      (publish false hn dv bg md_devto md_hashnode html topic now
        history).hashnodeSubmitted =
        some (pyReplace md_hashnode URL_PLACEHOLDER "this post"))
    ∧ (dv ≠ TargetResult.notConfigured →
      (publish false hn dv bg md_devto md_hashnode html topic now
        history).devtoSubmitted = some (pyReplace md_devto URL_PLACEHOLDER ""))
    ∧ (bg ≠ TargetResult.notConfigured →
      (publish false hn dv bg md_devto md_hashnode html topic now
        history).bloggerSubmitted =
        some (pyReplace html URL_PLACEHOLDER
          (if hn.isSuccess || dv.isSuccess then canonicalUrl hn dv else ""))) := by
  cases hn with
  | succeeded u =>
    have hu := hhn u rfl
    cases dv <;> cases bg <;>
      simp [publish, canonicalUrl, TargetResult.isSuccess, hu]
  | notConfigured =>
    cases dv with
    | succeeded v =>
      have hv2 : ¬v = "URL_PLACEHOLDER" := by simpa [URL_PLACEHOLDER] using hdv v rfl
      cases bg <;> simp [publish, canonicalUrl, TargetResult.isSuccess, hv2, URL_PLACEHOLDER]
    | notConfigured =>
      cases bg <;> simp [publish, canonicalUrl, TargetResult.isSuccess, URL_PLACEHOLDER]
    | failed =>
      cases bg <;> simp [publish, canonicalUrl, TargetResult.isSuccess, URL_PLACEHOLDER]
  | failed =>
    cases dv with
    | succeeded v =>
      have hv2 : ¬v = "URL_PLACEHOLDER" := by simpa [URL_PLACEHOLDER] using hdv v rfl
      cases bg <;> simp [publish, canonicalUrl, TargetResult.isSuccess, hv2, URL_PLACEHOLDER]
    | notConfigured =>
      cases bg <;> simp [publish, canonicalUrl, TargetResult.isSuccess, URL_PLACEHOLDER]
    | failed =>
      cases bg <;> simp [publish, canonicalUrl, TargetResult.isSuccess, URL_PLACEHOLDER]

/-- Witness for the amended C8: Hashnode succeeded, so the configured
Blogger target substitutes that canonical URL into its HTML body. -/
theorem publish_placeholder_substitution_witness :
    (publish false (TargetResult.succeeded "https://hn.example/p") TargetResult.failed
        TargetResult.failed "d URL_PLACEHOLDER" "h URL_PLACEHOLDER"
        "x URL_PLACEHOLDER" "T" 0 []).bloggerSubmitted =
      some (pyReplace "x URL_PLACEHOLDER" URL_PLACEHOLDER "https://hn.example/p") := by
  have h := (publish_placeholder_substitution (TargetResult.succeeded "https://hn.example/p")
    TargetResult.failed TargetResult.failed "d URL_PLACEHOLDER" "h URL_PLACEHOLDER"
    "x URL_PLACEHOLDER" "T" 0 []
    (fun u hu => by cases hu; decide)
    (fun u hu => nomatch hu)).2.2 (by decide)
  simpa [canonicalUrl, TargetResult.isSuccess] using h

/-- Claim C10: a dry-run publish writes the three rendered
representations to the three local files and changes nothing else: no
target body is submitted, no notifier is invoked, and the history is
returned unchanged. -/
theorem publish_dry_run_frame (hn dv bg : TargetResult)
    (md_devto md_hashnode html topic : String) (now : Int)
    (history : List HistoryEntry) :
    (publish true hn dv bg md_devto md_hashnode html topic now history).history = history
    ∧ (publish true hn dv bg md_devto md_hashnode html topic now
        history).notifications = []
    ∧ (publish true hn dv bg md_devto md_hashnode html topic now
        history).hashnodeSubmitted = none
    ∧ (publish true hn dv bg md_devto md_hashnode html topic now
        history).devtoSubmitted = none
    ∧ (publish true hn dv bg md_devto md_hashnode html topic now
        history).bloggerSubmitted = none
    ∧ (publish true hn dv bg md_devto md_hashnode html topic now
        history).filesWritten =
      [("dry_run_devto.md", md_devto), ("dry_run_hashnode.md", md_hashnode),
       ("dry_run_article.html", html)] :=
  ⟨rfl, rfl, rfl, rfl, rfl, rfl⟩

/-- Claim C9: the orchestrator loop never invokes content generation for
a candidate whose research fetch returned no usable text, and the first
candidate whose generation succeeds (and so reaches the publish step)
ends the run: the attempted candidates are exactly the prefix of the
input up to and including that candidate. -/
theorem run_loop_spec (research : String → List String)
    (gen : String → Option (List (String × String))) (topics : List String) :
    (∀ t ∈ (run_loop research gen topics).genCalls, research t ≠ [])
    ∧ (∀ t, (run_loop research gen topics).published = some t →
        (gen t).isSome = true ∧
        ∃ pre post, topics = pre ++ t :: post ∧
          (run_loop research gen topics).attempted = pre ++ [t]) := by
  induction topics with
  | nil =>
    refine ⟨?_, ?_⟩
    · intro t ht
      simp [run_loop] at ht
    · intro t ht
      simp [run_loop] at ht
  | cons c rest ih =>
    by_cases hr : research c = []
    · simp only [run_loop, if_pos hr]
      refine ⟨ih.1, ?_⟩
      intro t ht
      obtain ⟨hg, pre, post, heq, hatt⟩ := ih.2 t ht
      exact ⟨hg, c :: pre, post, by rw [heq]; rfl, by rw [hatt]; rfl⟩
    · simp only [run_loop, if_neg hr]
      cases hg : gen c with
      | some s =>
        refine ⟨?_, ?_⟩
        · intro t ht
          rcases List.mem_singleton.1 ht with h
          rw [h]; exact hr
        · intro t ht
          obtain rfl : c = t := by simpa using ht
          exact ⟨by rw [hg]; rfl, [], rest, rfl, rfl⟩
      | none =>
        refine ⟨?_, ?_⟩
        · intro t ht
          rcases List.mem_cons.1 ht with h | h
          · rw [h]; exact hr
          · exact ih.1 t h
        · intro t ht
          obtain ⟨hgt, pre, post, heq, hatt⟩ := ih.2 t ht
          exact ⟨hgt, c :: pre, post, by rw [heq]; rfl, by rw [hatt]; rfl⟩

/-- Witness for C9: a concrete run in which the first candidate has no
research text, the second generates successfully and ends the run. -/
theorem run_loop_spec_witness :
    (Option.some [("intro", "x")]).isSome = true :=
  ((run_loop_spec (fun t => if t = "a" then [] else ["snippet"])
      (fun t => if t = "b" then some [("intro", "x")] else none)
      ["a", "b", "c"]).2 "b" (by decide)).1

end AutoBlog
